import Mathlib

/-!
Shallow embedding of `shoting_game.py`: a 10×10 grid tank game where a
human-controlled tank plays against a tabular Q-learning agent.

Modelling conventions:
* Python ints are `ℤ` (grid coordinates, millisecond timestamps).
* Python floats (Q-values, learning constants) are `ℚ`; the update rule is
  pure arithmetic on the listed constants, so exact rationals embed it.
* The Q-table dict is a function `StateKey → Option (Action → ℚ)`;
  `none` means the key is absent, mirroring `s not in self.q_table`.
* Randomness is derandomised: `random.random()` becomes an explicit `roll : ℚ`
  argument and `random.choice(ACTIONS)` an explicit `pick : Action` argument.
* `pygame.time.get_ticks()` becomes an explicit `now : ℤ` argument.
* Rendering, fonts, the background image and the pygame event queue are
  presentation glue; only the quit signal and the pressed-key booleans enter
  the model, as fields of `FrameInput`.
-/

namespace ShotingGame

/-- The five discrete actions, `ACTIONS = ['UP','DOWN','LEFT','RIGHT','SHOOT']`. -/
inductive Action : Type where
  | UP : Action
  | DOWN : Action
  | LEFT : Action
  | RIGHT : Action
  | SHOOT : Action
deriving DecidableEq, Repr

/-- Position of an action in the `ACTIONS` list (the dict insertion order). -/
def Action.idx : Action → ℕ
  | .UP => 0
  | .DOWN => 1
  | .LEFT => 2
  | .RIGHT => 3
  | .SHOOT => 4

/-- `GRID_SIZE = 10`. -/
def GRID_SIZE : ℤ := 10

/-- `LEARNING_RATE = 0.1`. -/
def LEARNING_RATE : ℚ := 1 / 10

/-- `DISCOUNT = 0.95`. -/
def DISCOUNT : ℚ := 95 / 100

/-- `EPSILON = 0.1`. -/
def EPSILON : ℚ := 1 / 10

/-- `WIN_SCORE = 10`. -/
def WIN_SCORE : ℕ := 10

/-- `Tank.COOLDOWN_MS = 1000`. -/
def COOLDOWN_MS : ℤ := 1000

/-- A projectile `[x, y]` from a tank's `bullets` list. -/
abbrev Bullet := ℤ × ℤ

/-- The `Tank` class: position, allegiance, owned projectiles, last-shot
timestamp.  The `color` field is rendering-only and omitted. -/
structure Tank where
  x : ℤ
  y : ℤ
  is_player : Bool
  bullets : List Bullet
  last_shot_time : ℤ
deriving DecidableEq, Repr

/-- `Tank.__init__(x, y, is_player)`: `bullets = []`, `last_shot_time = 0`. -/
def Tank.init (x y : ℤ) ( is_player : Bool) : Tank :=
  { x := x, y := y, is_player := is_player, bullets := [], last_shot_time := 0 }

/-- `Tank.move(direction)`: the four guarded coordinate shifts, in the
source's order (each `if` reads the state left by the previous one). -/
def Tank.move (t : Tank) (direction : Action) : Tank :=
  let t1 := if direction = Action.UP ∧ t.y > 0 then { t with y := t.y - 1 } else t
  let t2 := if direction = Action.DOWN ∧ t1.y < GRID_SIZE - 1 then { t1 with y := t1.y + 1 } else t1
  let t3 := if direction = Action.LEFT ∧ t2.x > 0 then { t2 with x := t2.x - 1 } else t2
  if direction = Action.RIGHT ∧ t3.x < GRID_SIZE - 1 then { t3 with x := t3.x + 1 } else t3

/-- `Tank.can_shoot()`: true iff `now - last_shot_time >= COOLDOWN_MS`,
with `now` standing for `pygame.time.get_ticks()`. -/
def Tank.can_shoot (t : Tank) (now : ℤ) : Bool :=
  decide (now - t.last_shot_time ≥ COOLDOWN_MS)

/-- `Tank.shoot()`: when the cooldown has elapsed, append a projectile at
`[x, y-1]` (player) or `[x, y+1]` (AI) and record `now`; otherwise no-op. -/
def Tank.shoot (t : Tank) (now : ℤ) : Tank :=
  if t.can_shoot now then
    { t with
      bullets := t.bullets ++ [(t.x, if t.is_player then t.y - 1 else t.y + 1)],
      last_shot_time := now }
  else t

/-- `Tank.update_bullets()`: shift every projectile one row (up for the
player, down for the AI), then keep only rows with `0 <= b[1] < GRID_SIZE`. -/
def Tank.update_bullets (t : Tank) : Tank :=
  let moved := t.bullets.map (fun b => (b.1, b.2 + (if t.is_player then -1 else 1)))
  { t with bullets := moved.filter (fun b => decide (0 ≤ b.2 ∧ b.2 < GRID_SIZE)) }

/-- A Q-table key, the 4-tuple `(ai.x, ai.y, player.x, player.y)`. -/
abbrev StateKey := ℤ × ℤ × ℤ × ℤ

/-- `self.q_table`: a dict from state key to a per-action value row;
`none` models key absence. -/
abbrev QTable := StateKey → Option (Action → ℚ)

/-- The row stored at `s`, defaulting to the all-zero row used at lazy
initialisation time when the key is absent. -/
def rowOf (q : QTable) (s : StateKey) : Action → ℚ :=
  (q s).getD (fun _ => 0)

/-- `if s not in self.q_table: self.q_table[s] = {a: 0 for a in ACTIONS}`. -/
def ensure (q : QTable) (s : StateKey) : QTable :=
  if (q s).isSome then q else Function.update q s (some (fun _ => 0))

/-- `max(self.q_table[new_s].values())`: Python's left fold of `max` over the
five values in dict insertion order. -/
def maxRow (row : Action → ℚ) : ℚ :=
  max (max (max (max (row .UP) (row .DOWN)) (row .LEFT)) (row .RIGHT)) (row .SHOOT)

/-- `QLearningAgent.learn`, with the learning rate abstracted as `α` (the
source fixes `α = LEARNING_RATE`; the spec quantifies over `α ∈ (0,1]`). -/
def learnWith (α : ℚ) (q : QTable) (old_s : StateKey) (action : Action)
    (reward : ℚ) (new_s : StateKey) : QTable :=
  let q1 := ensure (ensure q old_s) new_s
  let old_q := rowOf q1 old_s action
  let future_q := maxRow (rowOf q1 new_s)
  let updated_q := old_q + α * (reward + DISCOUNT * future_q - old_q)
  Function.update q1 old_s (some (Function.update (rowOf q1 old_s) action updated_q))

/-- `QLearningAgent.learn(old_s, action, reward, new_s)` as written, with the
source's `LEARNING_RATE`. -/
def QLearningAgent.learn (q : QTable) (old_s : StateKey) (action : Action)
    (reward : ℚ) (new_s : StateKey) : QTable :=
  learnWith LEARNING_RATE q old_s action reward new_s

/-- `QLearningAgent.get_state(ai, player) = (ai.x, ai.y, player.x, player.y)`. -/
def QLearningAgent.get_state (ai player : Tank) : StateKey :=
  (ai.x, ai.y, player.x, player.y)

/-- `max(self.q_table[state], key=self.q_table[state].get)`: Python's `max`
keeps the earlier element on ties, scanning keys in insertion order. -/
def argmaxAction (row : Action → ℚ) : Action :=
  let b1 := if row .DOWN > row .UP then Action.DOWN else Action.UP
  let b2 := if row .LEFT > row b1 then Action.LEFT else b1
  let b3 := if row .RIGHT > row b2 then Action.RIGHT else b2
  if row .SHOOT > row b3 then Action.SHOOT else b3

/-- `QLearningAgent.choose_action(state)`, derandomised: `roll` stands for
`random.random()` and `pick` for `random.choice(ACTIONS)`. -/
def QLearningAgent.choose_action (q : QTable) (state : StateKey)
    (roll : ℚ) (pick : Action) : Action :=
  if roll < EPSILON ∨ (q state).isSome = false then pick
  else argmaxAction (rowOf q state)

/-- One hit-detection pass from `main`: scan the projectile list in order;
on the first projectile matching the opposing tank's position, remove it,
add one point and stop; otherwise leave list and score unchanged. -/
def hitStep (target : Bullet) : List Bullet → ℕ → List Bullet × ℕ
  | [], pts => ([], pts)
  | b :: rest, pts =>
    if b.1 = target.1 ∧ b.2 = target.2 then (rest, pts + 1)
    else
      let r := hitStep target rest pts
      (b :: r.1, r.2)

/-- The mutable state of `main`'s loop (plus the module-level agent's table). -/
structure GameState where
  player : Tank
  ai : Tank
  agentQ : QTable
  player_pts : ℕ
  ai_pts : ℕ
  run : Bool

/-- The per-frame external inputs: the quit signal, the pressed keys, the two
random draws consumed by `choose_action`, and the frame's clock reading. -/
structure FrameInput where
  quit : Bool
  keyLeft : Bool
  keyRight : Bool
  keyUp : Bool
  keyDown : Bool
  keySpace : Bool
  roll : ℚ
  pick : Action
  now : ℤ

/-- The player-input block: one guarded `move` per pressed arrow key, in the
source's order, then `shoot` on space. -/
def playerInputPhase (p : Tank) (i : FrameInput) : Tank :=
  let p1 := if i.keyLeft then p.move .LEFT else p
  let p2 := if i.keyRight then p1.move .RIGHT else p1
  let p3 := if i.keyUp then p2.move .UP else p2
  let p4 := if i.keyDown then p3.move .DOWN else p3
  if i.keySpace then p4.shoot i.now else p4

/-- The state key the frame feeds to the agent (computed after player input). -/
def frameState (g : GameState) (i : FrameInput) : StateKey :=
  QLearningAgent.get_state g.ai (playerInputPhase g.player i)

/-- The action the agent picks this frame. -/
def frameAction (g : GameState) (i : FrameInput) : Action :=
  QLearningAgent.choose_action g.agentQ (frameState g i) i.roll i.pick

/-- The frame up to and including `update_bullets`: events, player input,
AI decision and application, projectile advancement.  This is exactly the
state the hit-detection block then reads. -/
def preHit (g : GameState) (i : FrameInput) : GameState :=
  let run1 := if i.quit then false else g.run
  let player1 := playerInputPhase g.player i
  let action := frameAction g i
  let ai1 := if action = .UP ∨ action = .DOWN ∨ action = .LEFT ∨ action = .RIGHT
             then g.ai.move action else g.ai
  let ai2 := if action = .SHOOT then ai1.shoot i.now else ai1
  { g with
    player := player1.update_bullets,
    ai := ai2.update_bullets,
    run := run1 }

/-- One full iteration of `main`'s `while run` body: `preHit`, then the two
hit-detection passes, the learning call with reward 0, and the win check. -/
def frameStep (g : GameState) (i : FrameInput) : GameState :=
  let g1 := preHit g i
  let aiHit := hitStep (g1.player.x, g1.player.y) g1.ai.bullets g1.ai_pts
  let playerHit := hitStep (g1.ai.x, g1.ai.y) g1.player.bullets g1.player_pts
  let q1 := QLearningAgent.learn g1.agentQ (frameState g i) (frameAction g i) 0
              (QLearningAgent.get_state g1.ai g1.player)
  let run2 := if WIN_SCORE ≤ playerHit.2 ∨ WIN_SCORE ≤ aiHit.2 then false else g1.run
  { player := { g1.player with bullets := playerHit.1 },
    ai := { g1.ai with bullets := aiHit.1 },
    agentQ := q1,
    player_pts := playerHit.2,
    ai_pts := aiHit.2,
    run := run2 }

/-- `while run:` driven by a finite trace of frame inputs. -/
def runLoop : GameState → List FrameInput → GameState
  | g, [] => g
  | g, i :: rest => if g.run then runLoop (frameStep g i) rest else g

/-- `main`'s initial state: `player = Tank(5, 9, True)`, `ai = Tank(5, 0)`,
both scores 0, `run = True`, and the fresh module-level agent's empty table. -/
def initGame : GameState :=
  { player := Tank.init 5 9 true,
    ai := Tank.init 5 0 false,
    agentQ := fun _ => none,
    player_pts := 0,
    ai_pts := 0,
    run := true }

/-- Horizontal displacement a direction requests. -/
def dirDx : Action → ℤ
  | .LEFT => -1
  | .RIGHT => 1
  | _ => 0

/-- Vertical displacement a direction requests. -/
def dirDy : Action → ℤ
  | .UP => -1
  | .DOWN => 1
  | _ => 0

/-- A sample one-entry table used by concrete witnesses. -/
def exampleQ : QTable :=
  fun t => if t = (1, 1, 1, 1) then some (fun _ => 1) else none

/-! ### Helper lemmas about the Q-table operations -/

theorem rowOf_ensure (q : QTable) (s t : StateKey) : rowOf (ensure q s) t = rowOf q t := by
  unfold ensure
  by_cases h : (q s).isSome
  · simp [h]
  · rw [if_neg h]
    by_cases ht : t = s
    · subst ht
      rw [Option.not_isSome_iff_eq_none] at h
      unfold rowOf
      rw [Function.update_same, h]
      rfl
    · unfold rowOf
      rw [Function.update_noteq ht]

theorem isSome_ensure_self (q : QTable) (s : StateKey) : ((ensure q s) s).isSome = true := by
  unfold ensure
  by_cases h : (q s).isSome
  · simp [h]
  · rw [if_neg h, Function.update_same]
    rfl

theorem isSome_ensure_of (q : QTable) (s t : StateKey) (h : (q t).isSome = true) :
    ((ensure q s) t).isSome = true := by
  unfold ensure
  by_cases hs : (q s).isSome
  · simpa [hs]
  · rw [if_neg hs]
    by_cases ht : t = s
    · subst ht
      rw [Function.update_same]
      rfl
    · rw [Function.update_noteq ht]
      exact h

theorem ensure_apply_ne (q : QTable) (s t : StateKey) (h : t ≠ s) : (ensure q s) t = q t := by
  unfold ensure
  by_cases hs : (q s).isSome
  · rw [if_pos hs]
  · rw [if_neg hs, Function.update_noteq h]

theorem ensure_apply_none (q : QTable) (s : StateKey) (h : q s = none) :
    (ensure q s) s = some (fun _ => 0) := by
  unfold ensure
  rw [h]
  simp only [Option.isSome_none, Bool.false_eq_true, if_false]
  rw [Function.update_same]

theorem learnWith_isSome_old (α : ℚ) (q : QTable) (s : StateKey) (a : Action) (r : ℚ)
    (s' : StateKey) : ((learnWith α q s a r s') s).isSome = true := by
  simp only [learnWith]
  rw [Function.update_same]
  rfl

theorem learnWith_isSome_new (α : ℚ) (q : QTable) (s : StateKey) (a : Action) (r : ℚ)
    (s' : StateKey) : ((learnWith α q s a r s') s').isSome = true := by
  simp only [learnWith]
  by_cases h : s' = s
  · subst h
    rw [Function.update_same]
    rfl
  · rw [Function.update_noteq h]
    exact isSome_ensure_self _ _

theorem learnWith_insert_new (α : ℚ) (q : QTable) (s : StateKey) (a : Action) (r : ℚ)
    (s' : StateKey) (hnone : q s' = none) (hne : s' ≠ s) :
    (learnWith α q s a r s') s' = some (fun _ => 0) := by
  simp only [learnWith]
  rw [Function.update_noteq hne]
  have h1 : (ensure q s) s' = none := by
    rw [ensure_apply_ne q s s' hne, hnone]
  exact ensure_apply_none _ _ h1

theorem learnWith_apply_old (α : ℚ) (q : QTable) (s : StateKey) (a : Action) (r : ℚ)
    (s' : StateKey) :
    rowOf (learnWith α q s a r s') s a
      = rowOf q s a + α * (r + DISCOUNT * maxRow (rowOf q s') - rowOf q s a) := by
  simp only [learnWith]
  have hs : rowOf (ensure (ensure q s) s') s = rowOf q s := by
    rw [rowOf_ensure, rowOf_ensure]
  have hs' : rowOf (ensure (ensure q s) s') s' = rowOf q s' := by
    rw [rowOf_ensure, rowOf_ensure]
  unfold rowOf
  unfold rowOf at hs hs'
  rw [Function.update_same, Option.getD_some, Function.update_same, hs, hs']

theorem learnWith_apply_old_other (α : ℚ) (q : QTable) (s : StateKey) (a : Action) (r : ℚ)
    (s' : StateKey) (b : Action) (hb : b ≠ a) :
    rowOf (learnWith α q s a r s') s b = rowOf q s b := by
  simp only [learnWith]
  have hs : rowOf (ensure (ensure q s) s') s = rowOf q s := by
    rw [rowOf_ensure, rowOf_ensure]
  unfold rowOf
  unfold rowOf at hs
  rw [Function.update_same, Option.getD_some, Function.update_noteq hb, hs]

/-! ### Helper lemmas about tanks -/

theorem move_up_eq (t : Tank) :
    t.move .UP = if 0 < t.y then { t with y := t.y - 1 } else t := by
  simp [Tank.move]

theorem move_down_eq (t : Tank) :
    t.move .DOWN = if t.y < GRID_SIZE - 1 then { t with y := t.y + 1 } else t := by
  simp [Tank.move]

theorem move_left_eq (t : Tank) :
    t.move .LEFT = if 0 < t.x then { t with x := t.x - 1 } else t := by
  simp [Tank.move]

theorem move_right_eq (t : Tank) :
    t.move .RIGHT = if t.x < GRID_SIZE - 1 then { t with x := t.x + 1 } else t := by
  simp [Tank.move]

theorem shoot_not_ready (t : Tank) (now : ℤ) (h : t.can_shoot now = false) :
    t.shoot now = t := by
  unfold Tank.shoot
  rw [h]
  simp

/-! ### Claim theorems -/

/-- C1: `learn(s, a, r, s')` makes both `s` and `s'` present in the Q-table
(any missing key getting the all-zero row, with the untouched actions of a
freshly inserted `s` still zero afterwards), and replaces `Q(s,a)` by
`Q(s,a) + 0.1 * (r + 0.95 * max Q(s',·) - Q(s,a))`. -/
theorem learn_inserts_and_updates (q : QTable) (s s' : StateKey) (a : Action) (r : ℚ) :
    ((QLearningAgent.learn q s a r s') s).isSome = true ∧
    ((QLearningAgent.learn q s a r s') s').isSome = true ∧
    (q s' = none → s' ≠ s → (QLearningAgent.learn q s a r s') s' = some (fun _ => 0)) ∧
    (q s = none → ∀ b, b ≠ a → rowOf (QLearningAgent.learn q s a r s') s b = 0) ∧
    rowOf (QLearningAgent.learn q s a r s') s a
      = rowOf q s a + LEARNING_RATE * (r + DISCOUNT * maxRow (rowOf q s') - rowOf q s a) := by
  refine ⟨learnWith_isSome_old _ _ _ _ _ _, learnWith_isSome_new _ _ _ _ _ _, ?_, ?_, ?_⟩
  · intro hnone hne
    exact learnWith_insert_new _ _ _ _ _ _ hnone hne
  · intro hnone b hb
    rw [QLearningAgent.learn, learnWith_apply_old_other _ _ _ _ _ _ _ hb]
    unfold rowOf
    rw [hnone]
    rfl
  · exact learnWith_apply_old _ _ _ _ _ _

/-- Witness for C1 at the empty table: both keys become present, the new
key's row is all zeros, the untouched action of the old key stays zero, and
`Q(s,a)` becomes `0 + 0.1 * (1 + 0.95 * 0 - 0) = 1/10`. -/
theorem learn_inserts_and_updates_witness :
    ((QLearningAgent.learn (fun _ => none) (0, 0, 0, 0) .SHOOT 1 (1, 2, 3, 4)) (0, 0, 0, 0)).isSome
      = true ∧
    (QLearningAgent.learn (fun _ => none) (0, 0, 0, 0) .SHOOT 1 (1, 2, 3, 4)) (1, 2, 3, 4)
      = some (fun _ => 0) ∧
    rowOf (QLearningAgent.learn (fun _ => none) (0, 0, 0, 0) .SHOOT 1 (1, 2, 3, 4)) (0, 0, 0, 0) .UP
      = 0 ∧
    rowOf (QLearningAgent.learn (fun _ => none) (0, 0, 0, 0) .SHOOT 1 (1, 2, 3, 4))
        (0, 0, 0, 0) .SHOOT = 1 / 10 := by
  obtain ⟨h1, _, h3, h4, h5⟩ :=
    learn_inserts_and_updates (fun _ => none) (0, 0, 0, 0) (1, 2, 3, 4) .SHOOT 1
  refine ⟨h1, h3 rfl (by decide), h4 rfl .UP (by decide), ?_⟩
  rw [h5]
  norm_num [rowOf, maxRow, LEARNING_RATE, DISCOUNT]

/-- C2 counterexample: with the empty table, action UP, reward 0 and the
admissible learning rate 1/10, the update leaves `Q(s,a)` at 0 while the
target `0.95 * max Q(s',·)` is also 0, so the new value is not strictly
closer to the target than the old one. -/
theorem learn_strict_progress_counterexample :
    (0 < (1 / 10 : ℚ) ∧ (1 / 10 : ℚ) ≤ 1) ∧
    ¬ (|rowOf (learnWith (1 / 10) (fun _ => none) (0, 0, 0, 0) .UP 0 (1, 1, 1, 1)) (0, 0, 0, 0) .UP
          - DISCOUNT * maxRow (rowOf (fun _ => none : QTable) (1, 1, 1, 1))|
        < |rowOf (fun _ => none : QTable) (0, 0, 0, 0) .UP
          - DISCOUNT * maxRow (rowOf (fun _ => none : QTable) (1, 1, 1, 1))|) := by
  constructor
  · norm_num
  · have h := learnWith_apply_old (1 / 10) (fun _ => none) (0, 0, 0, 0) .UP 0 (1, 1, 1, 1)
    rw [h]
    norm_num [rowOf, maxRow]

/-- C2 (amended): with reward 0 and learning rate `α ∈ (0,1]`, the updated
`Q(s,a)` is strictly closer to the target `0.95 * max Q(s',·)` whenever the
old value differs from the target; in every case the distance to the target
does not grow and the value never crosses to the other side of the target. -/
theorem learn_moves_toward_target (α : ℚ) (q : QTable) (s s' : StateKey) (a : Action)
    (h0 : 0 < α) (h1 : α ≤ 1) :
    (rowOf q s a ≠ DISCOUNT * maxRow (rowOf q s') →
      |rowOf (learnWith α q s a 0 s') s a - DISCOUNT * maxRow (rowOf q s')|
        < |rowOf q s a - DISCOUNT * maxRow (rowOf q s')|) ∧
    |rowOf (learnWith α q s a 0 s') s a - DISCOUNT * maxRow (rowOf q s')|
      ≤ |rowOf q s a - DISCOUNT * maxRow (rowOf q s')| ∧
    0 ≤ (DISCOUNT * maxRow (rowOf q s') - rowOf (learnWith α q s a 0 s') s a)
          * (DISCOUNT * maxRow (rowOf q s') - rowOf q s a) := by
  have key := learnWith_apply_old α q s a 0 s'
  have hdiff : rowOf (learnWith α q s a 0 s') s a - DISCOUNT * maxRow (rowOf q s')
      = (1 - α) * (rowOf q s a - DISCOUNT * maxRow (rowOf q s')) := by
    rw [key]; ring
  have habs : |rowOf (learnWith α q s a 0 s') s a - DISCOUNT * maxRow (rowOf q s')|
      = (1 - α) * |rowOf q s a - DISCOUNT * maxRow (rowOf q s')| := by
    rw [hdiff, abs_mul, abs_of_nonneg (by linarith : (0:ℚ) ≤ 1 - α)]
  refine ⟨?_, ?_, ?_⟩
  · intro hne
    have hpos : 0 < |rowOf q s a - DISCOUNT * maxRow (rowOf q s')| :=
      abs_pos.mpr (sub_ne_zero.mpr hne)
    rw [habs]
    nlinarith
  · rw [habs]
    nlinarith [abs_nonneg (rowOf q s a - DISCOUNT * maxRow (rowOf q s'))]
  · have h2 : DISCOUNT * maxRow (rowOf q s') - rowOf (learnWith α q s a 0 s') s a
        = (1 - α) * (DISCOUNT * maxRow (rowOf q s') - rowOf q s a) := by
      rw [key]; ring
    rw [h2]
    nlinarith [sq_nonneg (DISCOUNT * maxRow (rowOf q s') - rowOf q s a)]

/-- Witness for the amended C2: a table where `Q(s',·) = 1` everywhere, so
the target is 19/20 while `Q(s,a) = 0`, and the `α = 1/2` update halves the
distance. -/
theorem learn_moves_toward_target_witness :
    |rowOf (learnWith (1 / 2) exampleQ (0, 0, 0, 0) .UP 0 (1, 1, 1, 1)) (0, 0, 0, 0) .UP
        - DISCOUNT * maxRow (rowOf exampleQ (1, 1, 1, 1))|
      < |rowOf exampleQ (0, 0, 0, 0) .UP - DISCOUNT * maxRow (rowOf exampleQ (1, 1, 1, 1))| := by
  refine (learn_moves_toward_target (1 / 2) exampleQ (0, 0, 0, 0) (1, 1, 1, 1) .UP
    (by norm_num) (by norm_num)).1 ?_
  norm_num [rowOf, maxRow, exampleQ, DISCOUNT]

/-- C3: from any in-bounds position, `move` shifts the position by one cell
in the requested direction exactly when the resulting coordinate stays in
`[0, GRID_SIZE-1]`, leaves the position unchanged otherwise, and in every
case the resulting coordinates stay within `[0, GRID_SIZE-1]`. -/
theorem move_stays_in_bounds (t : Tank) (d : Action) (hd : d ≠ Action.SHOOT)
    (hx0 : 0 ≤ t.x) (hx1 : t.x < GRID_SIZE) (hy0 : 0 ≤ t.y) (hy1 : t.y < GRID_SIZE) :
    ((0 ≤ t.x + dirDx d ∧ t.x + dirDx d < GRID_SIZE ∧
        0 ≤ t.y + dirDy d ∧ t.y + dirDy d < GRID_SIZE) →
      (t.move d).x = t.x + dirDx d ∧ (t.move d).y = t.y + dirDy d) ∧
    (¬ (0 ≤ t.x + dirDx d ∧ t.x + dirDx d < GRID_SIZE ∧
        0 ≤ t.y + dirDy d ∧ t.y + dirDy d < GRID_SIZE) →
      (t.move d).x = t.x ∧ (t.move d).y = t.y) ∧
    (0 ≤ (t.move d).x ∧ (t.move d).x < GRID_SIZE ∧
      0 ≤ (t.move d).y ∧ (t.move d).y < GRID_SIZE) := by
  rw [GRID_SIZE] at hx1 hy1
  cases d with
  | SHOOT => exact absurd rfl hd
  | UP =>
    rw [move_up_eq]
    simp only [dirDx, dirDy, GRID_SIZE]
    split_ifs with h <;> simp <;> omega
  | DOWN =>
    rw [move_down_eq]
    simp only [dirDx, dirDy, GRID_SIZE]
    split_ifs with h <;> simp <;> omega
  | LEFT =>
    rw [move_left_eq]
    simp only [dirDx, dirDy, GRID_SIZE]
    split_ifs with h <;> simp <;> omega
  | RIGHT =>
    rw [move_right_eq]
    simp only [dirDx, dirDy, GRID_SIZE]
    split_ifs with h <;> simp <;> omega

/-- Witness for C3: the player start `(5,9)` moves UP to row 8, cannot move
DOWN (row 10 would leave the grid), and stays in bounds after the blocked
attempt. -/
theorem move_stays_in_bounds_witness :
    ((Tank.init 5 9 true).move .UP).y = 8 ∧
    ((Tank.init 5 9 true).move .DOWN).y = 9 ∧
    (0 ≤ ((Tank.init 5 9 true).move .DOWN).y ∧
      ((Tank.init 5 9 true).move .DOWN).y < GRID_SIZE) := by
  have hup := (move_stays_in_bounds (Tank.init 5 9 true) .UP (by decide)
    (by decide) (by decide) (by decide) (by decide)).1 (by decide)
  have hdown := move_stays_in_bounds (Tank.init 5 9 true) .DOWN (by decide)
    (by decide) (by decide) (by decide) (by decide)
  refine ⟨?_, ?_, hdown.2.2.2.2⟩
  · rw [hup.2]
    decide
  · rw [(hdown.2.1 (by decide)).2]
    decide

/-- C4: `shoot` fires exactly when at least `COOLDOWN_MS` milliseconds have
elapsed since the last-shot timestamp, in which case it appends one
projectile at the tank's column, one row toward the opponent, and records
the current time; otherwise it changes nothing.  Two calls within one
cooldown window add at most one projectile. -/
theorem shoot_cooldown_behaviour (t : Tank) (now now2 : ℤ) :
    (t.can_shoot now = true ↔ COOLDOWN_MS ≤ now - t.last_shot_time) ∧
    (t.can_shoot now = true →
      (t.shoot now).bullets
          = t.bullets ++ [(t.x, if t.is_player then t.y - 1 else t.y + 1)] ∧
        (t.shoot now).last_shot_time = now ∧
        (t.shoot now).x = t.x ∧ (t.shoot now).y = t.y) ∧
    (t.can_shoot now = false → t.shoot now = t) ∧
    (now2 - now < COOLDOWN_MS →
      ((t.shoot now).shoot now2).bullets.length ≤ t.bullets.length + 1) := by
  refine ⟨by simp [Tank.can_shoot], ?_, ?_, ?_⟩
  · intro h
    simp [Tank.shoot, h]
  · intro h
    simp [Tank.shoot, h]
  · intro hwin
    by_cases h1 : t.can_shoot now
    · have hfired : (t.shoot now).last_shot_time = now := by simp [Tank.shoot, h1]
      have hlen : (t.shoot now).bullets.length = t.bullets.length + 1 := by
        simp [Tank.shoot, h1]
      have h2 : (t.shoot now).can_shoot now2 = false := by
        simp only [Tank.can_shoot, hfired, decide_eq_false_iff_not]
        omega
      rw [shoot_not_ready _ _ h2, hlen]
    · have h1' : t.can_shoot now = false := by simpa using h1
      rw [shoot_not_ready _ _ h1']
      by_cases h2 : t.can_shoot now2
      · simp [Tank.shoot, h2]
      · have h2' : t.can_shoot now2 = false := by simpa using h2
        rw [shoot_not_ready _ _ h2']
        omega

/-- Witness for C4, the spec's example: the player tank at `(5,9)` fires at
time 1000 and the projectile starts at `(5,8)`; a second call at time 1500
(within the window) leaves a single projectile. -/
theorem shoot_cooldown_behaviour_witness :
    ((Tank.init 5 9 true).shoot 1000).bullets = [(5, 8)] ∧
    ((Tank.init 5 9 true).shoot 1000).last_shot_time = 1000 ∧
    (((Tank.init 5 9 true).shoot 1000).shoot 1500).bullets.length
      ≤ (Tank.init 5 9 true).bullets.length + 1 := by
  have h := shoot_cooldown_behaviour (Tank.init 5 9 true) 1000 1500
  have hfire := h.2.1 (by decide)
  refine ⟨?_, hfire.2.1, h.2.2.2 (by decide)⟩
  rw [hfire.1]
  decide

/-- C5: after `update_bullets`, a projectile is in the list exactly when its
row is in `[0, GRID_SIZE-1]` and it came from an owned projectile one row
behind it (same column, row shifted toward the opposing edge); so every
surviving in-bounds projectile is kept and every out-of-bounds one is
dropped. -/
theorem update_bullets_membership (t : Tank) (c : Bullet) :
    c ∈ (t.update_bullets).bullets ↔
      (0 ≤ c.2 ∧ c.2 < GRID_SIZE ∧
        (c.1, c.2 - (if t.is_player then -1 else 1)) ∈ t.bullets) := by
  unfold Tank.update_bullets
  simp only [List.mem_filter, List.mem_map, decide_eq_true_eq]
  constructor
  · rintro ⟨⟨b, hb, hc⟩, h0, h1⟩
    subst hc
    refine ⟨h0, h1, ?_⟩
    simpa using hb
  · rintro ⟨h0, h1, hmem⟩
    exact ⟨⟨(c.1, c.2 - (if t.is_player then -1 else 1)), hmem, by simp⟩, h0, h1⟩

/-- Witness for C5: a player projectile at `(5,8)` advances to `(5,7)` and is
kept, matching the spec's example. -/
theorem update_bullets_membership_witness :
    ((5 : ℤ), (7 : ℤ)) ∈ ((Tank.mk 5 9 true [(5, 8)] 0).update_bullets).bullets := by
  refine (update_bullets_membership (Tank.mk 5 9 true [(5, 8)] 0) (5, 7)).mpr ?_
  refine ⟨by decide, by decide, ?_⟩
  simp

/-- C10: a freshly constructed tank has last-shot timestamp 0, so before the
process clock reaches `COOLDOWN_MS` it cannot shoot and `shoot` is a no-op,
even though it has never fired. -/
theorem fresh_tank_first_shot_blocked (x y : ℤ) (p : Bool) (now : ℤ)
    (hnow : now < COOLDOWN_MS) :
    (Tank.init x y p).last_shot_time = 0 ∧
    (Tank.init x y p).can_shoot now = false ∧
    (Tank.init x y p).shoot now = Tank.init x y p := by
  have hcs : (Tank.init x y p).can_shoot now = false := by
    simp only [Tank.can_shoot, Tank.init, decide_eq_false_iff_not]
    omega
  exact ⟨rfl, hcs, by simp [Tank.shoot, hcs]⟩

/-- Witness for C10 at the AI start tank and clock reading 999 ms. -/
theorem fresh_tank_first_shot_blocked_witness :
    (Tank.init 5 0 false).can_shoot 999 = false ∧
    (Tank.init 5 0 false).shoot 999 = Tank.init 5 0 false := by
  have h := fresh_tank_first_shot_blocked 5 0 false 999 (by decide)
  exact ⟨h.2.1, h.2.2⟩

/-- C6: in one hit-detection pass, if some projectile sits exactly on the
opposing tank's position, the first such projectile is removed (everything
before it was a non-match and is kept, as is everything after it) and the
score rises by exactly 1, with no further projectile processed; if no
projectile matches, list and score are unchanged. -/
theorem hit_detection_first_match (target : Bullet) (bullets : List Bullet) (pts : ℕ) :
    (target ∈ bullets →
      ∃ l1 l2, bullets = l1 ++ target :: l2 ∧ target ∉ l1 ∧
        hitStep target bullets pts = (l1 ++ l2, pts + 1)) ∧
    (target ∉ bullets → hitStep target bullets pts = (bullets, pts)) := by
  induction bullets with
  | nil =>
    exact ⟨fun h => absurd h (List.not_mem_nil target), fun _ => rfl⟩
  | cons b rest ih =>
    constructor
    · intro hmem
      by_cases hb : b.1 = target.1 ∧ b.2 = target.2
      · have hbt : b = target := by
          cases b; cases target; simp_all

        refine ⟨[], rest, by rw [hbt]; rfl, List.not_mem_nil target, ?_⟩
        simp [hitStep, hb]
      · have hbt : b ≠ target := by
          intro he
          exact hb (by rw [he]; exact ⟨rfl, rfl⟩)
        have hmem' : target ∈ rest := by
          rcases List.mem_cons.mp hmem with h | h
          · exact absurd h.symm hbt
          · exact h
        obtain ⟨l1, l2, heq, hnot, hres⟩ := ih.1 hmem'
        refine ⟨b :: l1, l2, by rw [heq]; rfl, ?_, ?_⟩
        · intro hc
          rcases List.mem_cons.mp hc with h | h
          · exact hbt h.symm
          · exact hnot h
        · simp [hitStep, hb, hres]
    · intro hmem
      have hb : ¬ (b.1 = target.1 ∧ b.2 = target.2) := by
        intro hc
        apply hmem
        have : b = target := by cases b; cases target; simp_all
        rw [← this]
        exact List.mem_cons_self b rest
      have hmem' : target ∉ rest := fun hc => hmem (List.mem_cons_of_mem b hc)
      simp [hitStep, hb, ih.2 hmem']

/-- Witness for C6, the spec's example: a player projectile at `(5,0)` on the
AI tank's cell `(5,0)` is removed and the score moves from 0 to 1, while a
non-matching projectile leaves list and score unchanged. -/
theorem hit_detection_first_match_witness :
    hitStep (5, 0) [((5 : ℤ), (0 : ℤ))] 0 = ([], 1) ∧
    hitStep (5, 0) [((4 : ℤ), (4 : ℤ))] 0 = ([(4, 4)], 0) := by
  constructor
  · obtain ⟨l1, l2, heq, -, hres⟩ :=
      (hit_detection_first_match (5, 0) [((5 : ℤ), (0 : ℤ))] 0).1 (by decide)
    cases l1 with
    | nil =>
      have hl2 : l2 = [] := by simpa using heq
      rw [hres, hl2]
      rfl
    | cons a l => simp at heq
  · exact (hit_detection_first_match (5, 0) [((4 : ℤ), (4 : ℤ))] 0).2 (by decide)

/-! ### Helper lemmas about the greedy selection -/

theorem argmaxAction_is_max (row : Action → ℚ) (a : Action) :
    row a ≤ row (argmaxAction row) := by
  simp only [argmaxAction]
  split_ifs with h1 h2 h3 h4 <;> cases a <;> linarith

theorem argmaxAction_first_of_ties (row : Action → ℚ) (b : Action)
    (h : Action.idx b < Action.idx (argmaxAction row)) :
    row b < row (argmaxAction row) := by
  simp only [argmaxAction] at h ⊢
  split_ifs at h ⊢ <;> cases b <;>
    simp only [Action.idx] at h <;> first | omega | linarith

/-- C7: `choose_action` returns the supplied random action when the
exploration roll falls below ε = 0.1 or the state is absent from the table,
and otherwise returns the greedy action: the first action in the `ACTIONS`
order whose estimate attains the row's maximum.  The table itself is not an
output of the function, so no entry is inserted, removed or changed. -/
theorem choose_action_greedy (q : QTable) (s : StateKey) (roll : ℚ) (pick : Action) :
    ((roll < EPSILON ∨ q s = none) → QLearningAgent.choose_action q s roll pick = pick) ∧
    (¬ roll < EPSILON → ∀ row, q s = some row →
      QLearningAgent.choose_action q s roll pick = argmaxAction row ∧
      (∀ a, row a ≤ row (argmaxAction row)) ∧
      (∀ b, Action.idx b < Action.idx (argmaxAction row) →
        row b < row (argmaxAction row))) := by
  constructor
  · intro h
    rcases h with h | h
    · simp [QLearningAgent.choose_action, h]
    · simp [QLearningAgent.choose_action, h]
  · intro hroll row hrow
    have hcond : ¬ (roll < EPSILON ∨ (q s).isSome = false) := by
      simp [hroll, hrow]
    refine ⟨?_, argmaxAction_is_max row, argmaxAction_first_of_ties row⟩
    simp only [QLearningAgent.choose_action, if_neg hcond]
    unfold rowOf
    rw [hrow]
    rfl

/-- Witness for C7: with the one-entry table, a greedy roll of 1/2 at the
known all-ones state returns UP (the first maximiser in `ACTIONS` order),
and at an unknown state the supplied random action comes back. -/
theorem choose_action_greedy_witness :
    QLearningAgent.choose_action exampleQ (1, 1, 1, 1) (1 / 2) .SHOOT = .UP ∧
    QLearningAgent.choose_action exampleQ (0, 0, 0, 0) (1 / 2) .LEFT = .LEFT := by
  constructor
  · have h := ((choose_action_greedy exampleQ (1, 1, 1, 1) (1 / 2) .SHOOT).2
      (by norm_num [EPSILON]) (fun _ => 1) rfl).1
    rw [h]
    decide
  · exact (choose_action_greedy exampleQ (0, 0, 0, 0) (1 / 2) .LEFT).1 (Or.inr rfl)

/-! ### Concrete states for loop witnesses -/

/-- A state one hit away from a player win: the player projectile at `(5,1)`
reaches the AI tank at `(5,0)` this frame. -/
def winFrameState : GameState :=
  { player := { x := 5, y := 9, is_player := true, bullets := [(5, 1)], last_shot_time := 0 },
    ai := Tank.init 5 0 false,
    agentQ := fun _ => none,
    player_pts := 9,
    ai_pts := 0,
    run := true }

/-- A frame with no quit signal, no key pressed, a greedy roll, and the
random fallback action UP. -/
def idleInput : FrameInput :=
  { quit := false, keyLeft := false, keyRight := false, keyUp := false,
    keyDown := false, keySpace := false, roll := 1 / 2, pick := Action.UP, now := 0 }

/-- `winFrameState` after its run flag has been cleared. -/
def haltedState : GameState :=
  { winFrameState with run := false }

theorem update_bullets_row_bounds (t : Tank) (b : Bullet)
    (hb : b ∈ (t.update_bullets).bullets) : 0 ≤ b.2 ∧ b.2 < GRID_SIZE := by
  unfold Tank.update_bullets at hb
  simp only [List.mem_filter, decide_eq_true_eq] at hb
  exact hb.2

/-- C8: both score counters start at 0, a frame whose final scores reach the
win threshold ends with the run flag false, and a false run flag stops the
loop immediately (no further frame is simulated). -/
theorem win_threshold_stops_loop :
    initGame.player_pts = 0 ∧ initGame.ai_pts = 0 ∧
    (∀ (g : GameState) (i : FrameInput),
      (WIN_SCORE ≤ (frameStep g i).player_pts ∨ WIN_SCORE ≤ (frameStep g i).ai_pts) →
      (frameStep g i).run = false) ∧
    (∀ (g : GameState) (inps : List FrameInput), g.run = false → runLoop g inps = g) := by
  refine ⟨rfl, rfl, ?_, ?_⟩
  · intro g i h
    simp only [frameStep] at h ⊢
    rw [if_pos h]
  · intro g inps h
    cases inps with
    | nil => rfl
    | cons i rest => simp [runLoop, h]

/-- Witness for C8: from `winFrameState` the frame's hit raises the player
score to 10, the run flag drops, and the loop makes no further step. -/
theorem win_threshold_stops_loop_witness :
    (frameStep winFrameState idleInput).player_pts = 10 ∧
    (frameStep winFrameState idleInput).run = false ∧
    runLoop haltedState [idleInput] = haltedState := by
  have hact : frameAction winFrameState idleInput = Action.UP := by
    unfold frameAction QLearningAgent.choose_action
    exact if_pos (Or.inr rfl)
  have hpts : (frameStep winFrameState idleInput).player_pts = 10 := by
    simp only [frameStep, preHit]
    rw [hact]
    decide
  have h := win_threshold_stops_loop
  refine ⟨hpts, ?_, ?_⟩
  · refine h.2.2.1 winFrameState idleInput (Or.inl ?_)
    rw [hpts]
    decide
  · exact h.2.2.2 haltedState [idleInput] rfl

/-- C9: a player tank shooting from row 0 (or an AI tank from row
`GRID_SIZE-1`) spawns a projectile whose row is off the grid; after any
`update_bullets` every remaining projectile row is within
`[0, GRID_SIZE-1]`; and since the frame runs `update_bullets` for both tanks
before hit detection, every projectile either list holds at the
hit-detection step is in bounds, so an out-of-bounds spawn never scores. -/
theorem out_of_bounds_spawn_never_hits :
    (∀ (t : Tank) (now : ℤ), t.is_player = true → t.y = 0 → t.can_shoot now = true →
      (t.shoot now).bullets = t.bullets ++ [(t.x, -1)]) ∧
    (∀ (t : Tank) (now : ℤ), t.is_player = false → t.y = GRID_SIZE - 1 →
      t.can_shoot now = true →
      (t.shoot now).bullets = t.bullets ++ [(t.x, GRID_SIZE)]) ∧
    (∀ (t : Tank) (b : Bullet), b ∈ (t.update_bullets).bullets →
      0 ≤ b.2 ∧ b.2 < GRID_SIZE) ∧
    (∀ (g : GameState) (i : FrameInput) (b : Bullet),
      (b ∈ (preHit g i).player.bullets → 0 ≤ b.2 ∧ b.2 < GRID_SIZE) ∧
      (b ∈ (preHit g i).ai.bullets → 0 ≤ b.2 ∧ b.2 < GRID_SIZE)) := by
  refine ⟨?_, ?_, update_bullets_row_bounds, ?_⟩
  · intro t now hp hy hcs
    simp [Tank.shoot, hcs, hp, hy]
  · intro t now hp hy hcs
    simp only [Tank.shoot, hcs, if_true, hp, Bool.false_eq_true, if_false, hy]
    norm_num
  · intro g i b
    constructor
    · intro hb
      simp only [preHit] at hb
      exact update_bullets_row_bounds _ _ hb
    · intro hb
      simp only [preHit] at hb
      exact update_bullets_row_bounds _ _ hb

/-- Witness for C9: a player tank shooting from `(5,0)` spawns `(5,-1)`;
an AI tank shooting from `(5,9)` spawns `(5,10)`; a surviving projectile
after `update_bullets` is in bounds; and the projectile `(5,0)` present at
`winFrameState`'s hit-detection step is in bounds. -/
theorem out_of_bounds_spawn_never_hits_witness :
    ((Tank.mk 5 0 true [] 0).shoot 2000).bullets = [(5, -1)] ∧
    ((Tank.mk 5 9 false [] 0).shoot 2000).bullets = [(5, 10)] ∧
    (0 ≤ (7 : ℤ) ∧ (7 : ℤ) < GRID_SIZE) ∧
    (0 ≤ (0 : ℤ) ∧ (0 : ℤ) < GRID_SIZE) := by
  obtain ⟨h1, h2, h3, h4⟩ := out_of_bounds_spawn_never_hits
  refine ⟨?_, ?_, ?_, ?_⟩
  · rw [h1 (Tank.mk 5 0 true [] 0) 2000 rfl rfl (by decide)]
    rfl
  · rw [h2 (Tank.mk 5 9 false [] 0) 2000 rfl (by decide) (by decide)]
    rfl
  · exact h3 (Tank.mk 5 9 true [(5, 8)] 0) (5, 7) (by decide)
  · exact (h4 winFrameState idleInput (5, 0)).1 (by decide)

end ShotingGame
